import Mathlib

/-!
The journal selector and the console presenter of `emerg_wait.c`.

A shallow embedding of `src/emerg_wait.c`.  The program talks to the journal
library and to the kernel; every answer of those collaborators is an input of
the model (the `JournalEnv` and `TtyEnv` records), and every call the program
makes is recorded, in program order, in a list of `Event`s.
-/

namespace EmergWait

/-- Raw bytes (`char` buffers); each element is meant to be below 256. -/
abbrev Bytes := List Nat

/-- The bytes of a C string literal, without the terminating zero byte. -/
def cstr (s : String) : Bytes := s.data.map Char.toNat

/-- The macro `ANSI_HOME_CLEAR`. -/
def ANSI_HOME_CLEAR : Bytes := cstr "\x1B[H\x1B[2J"

/-- The macro `ANSI_BRIGHT_BLUE_BACKGROUND`. -/
def ANSI_BRIGHT_BLUE_BACKGROUND : Bytes := cstr "\x1B[44m"

/-- What `strlen` measures: the bytes of a buffer before its first zero byte. -/
def c_string (buf : Bytes) : Bytes := buf.takeWhile (fun b => b != 0)

/-- The conversion `%d` of `sprintf`, for an `int`. -/
def fmt_d (n : Int) : Bytes :=
  match n with
  | Int.ofNat m => (Nat.toDigits 10 m).map Char.toNat
  | Int.negSucc m => 45 :: (Nat.toDigits 10 (m + 1)).map Char.toNat

/-- One call made by the program, with the arguments and, where the program
looks at it, the result.  The bytes of a `write` are the ones handed to it,
`fgetc` and `fclose` carry the descriptor of their stream, `free` the string
it is given (`none` for `NULL`). -/
inductive Event where
  | sd_journal_open (r : Int)
  | sd_id128_get_boot
  | sd_journal_add_match (term : Bytes)
  | sd_journal_seek_head
  | sd_journal_next
  | sd_journal_wait
  | sd_journal_get_data (field : String)
  | sd_journal_close
  | malloc (size : Nat)
  | open_tty (path : Bytes) (fd : Int)
  | close (fd : Int)
  | ioctl_VT_GETSTATE (fd : Int)
  | ioctl_VT_ACTIVATE (fd : Int) (vt : Int)
  | ioctl_TIOCGWINSZ (fd : Int)
  | write (fd : Int) (data : Bytes)
  | fdopen (fd : Int)
  | fgetc (fd : Int)
  | fclose (fd : Int)
  | printf (format : String)
  | free (p : Option Bytes)
  deriving DecidableEq

/-! ## `memdup_suffix0` -/

/-- `memcpy_safe` followed by the store of the terminator, as `memdup_suffix0`
does it: `malloc_ok` says whether `malloc (l + 1)` succeeds; the copy takes the
first `l` bytes at `p` and byte `l` of the new buffer is zero. -/
def memdup_suffix0 (malloc_ok : Bool) (p : Bytes) (l : Nat) : Option Bytes :=
  if !malloc_ok then none
  else some (p.take l ++ [0])

/-! ## `find_next_free_vt` -/

/-- The `for` loop of `find_next_free_vt`: `remaining` is the number of
indices still below the bound `sizeof (v_state) * 8`, `i` the loop variable.
The result is the value of `i` when the loop is left. -/
def scan_from (v_state : Nat) : Nat → Nat → Nat
  | 0, i => i
  | remaining + 1, i =>
    if v_state &&& (1 <<< i) = 0 then i
    else scan_from v_state remaining (i + 1)

/-- The `struct vt_stat` fields the program reads after `VT_GETSTATE`. -/
structure vt_stat where
  v_active : Nat
  v_state : Nat
  deriving DecidableEq

/-- `find_next_free_vt`.  `nbits` is `sizeof (terminal_status.v_state) * 8`
(the declaration of `struct vt_stat` comes from `linux/vt.h`, where `v_state`
is an `unsigned short`, 16 bits; the shift `1 << i` is an `int` shift, exact
for `i < 31`).  `ioctl_r` and `errno` are the result of the `VT_GETSTATE`
ioctl and the error number it left, `st` the structure it filled.
The result is the return value and the new values of `*free_vt` and
`*original_vt`, whose old values are `free_vt` and `original_vt`. -/
def find_next_free_vt (nbits : Nat) (ioctl_r : Int) (errno : Int) (st : vt_stat)
    (free_vt original_vt : Int) : Int × Int × Int :=
  if ioctl_r < 0 then (-errno, free_vt, original_vt)
  else
    let i := scan_from st.v_state nbits 0
    (0, (i : Int), (st.v_active : Int))

/-! ## The console presenter -/

/-- The answers of the kernel to the calls of
`display_emergency_message_fullscreen`, in the order in which it makes them. -/
structure TtyEnv where
  /-- The value of sizeof (terminal_status.v_state) * 8. -/
  v_state_bits : Nat
  /-- The result of open ("/dev/tty1", ...). -/
  open_tty1 : Int
  /-- The result of the VT_GETSTATE ioctl. -/
  getstate_r : Int
  /-- The error number left by a failed VT_GETSTATE ioctl. -/
  getstate_errno : Int
  /-- The structure filled by the VT_GETSTATE ioctl. -/
  st : vt_stat
  /-- The result of open (tty, ...) for the chosen VT. -/
  open_target : Int
  /-- The result of the first VT_ACTIVATE ioctl. -/
  activate_target_r : Int
  /-- The field w.ws_row after the TIOCGWINSZ ioctl, whose result the code
  does not look at. -/
  ws_row : Nat
  write_background_r : Int
  write_clear_r : Int
  write_cursor_r : Int
  write_message_r : Int
  write_message_id_r : Int
  /-- Whether fdopen returns a stream. -/
  fdopen_ok : Bool
  /-- The result of fgetc, -1 being EOF. -/
  fgetc_r : Int
  /-- The result of the VT_ACTIVATE ioctl for original_vt. -/
  activate_original_r : Int

/-- How a function of the program ends: `ret` is the value it returns, or
`none` when the process is killed inside it (by `strlen (NULL)`, or by `free`
of a string literal); `trace` is the calls it made, in order. -/
structure Run where
  ret : Option Int
  trace : List Event
  deriving DecidableEq

/-- The run `r` preceded by the calls `evs`. -/
def Run.after (evs : List Event) (r : Run) : Run := ⟨r.ret, evs ++ r.trace⟩

/-- `set_cursor_row`; `write_r` is the result of its `write`.  `sprintf`
stores the bytes of `cursor_position` and a terminator; none of them is zero,
so `strlen (cursor_position)` counts all of them. -/
def set_cursor_row (write_r : Int) (fd : Int) (row : Int) : Int × List Event :=
  let cursor_position := cstr "\x1B[" ++ fmt_d row ++ cstr "H"
  let r := write_r
  if r < 0 then
    (-1, [Event.write fd cursor_position, Event.printf "Failed to set cursor position: %s\n"])
  else (0, [Event.write fd cursor_position])

/-- `display_emergency_message_fullscreen`.  A `NULL` argument is `none`; a
buffer is given with its terminator, and `strlen` stops at its first zero. -/
def display_emergency_message_fullscreen (env : TtyEnv)
    (message message_id : Option Bytes) : Run :=
  let fd := env.open_tty1
  Run.after [Event.open_tty (cstr "/dev/tty1") fd] <|
  if fd < 0 then ⟨some (-1), [Event.printf "Failed to open tty1: %s\n"]⟩ else
  let found := find_next_free_vt env.v_state_bits env.getstate_r env.getstate_errno
    env.st (-1) (-1)
  let r := found.1
  let free_vt := found.2.1
  let original_vt := found.2.2
  Run.after [Event.ioctl_VT_GETSTATE fd] <|
  if r < 0 then
    ⟨some r, [Event.printf "Failed to find a free VT: %s\n", Event.close fd]⟩ else
  let tty := cstr "/dev/tty" ++ fmt_d (free_vt + 1)
  let fd1 := fd
  let fd := env.open_target
  Run.after [Event.close fd1, Event.open_tty tty fd] <|
  if fd < 0 then ⟨some (-1), [Event.printf "Failed to open tty: %s\n"]⟩ else
  Run.after [Event.ioctl_VT_ACTIVATE fd (free_vt + 1)] <|
  if env.activate_target_r < 0 then
    ⟨some (-1), [Event.printf "Failed to activate tty: %s\n", Event.close fd]⟩ else
  let mid_row : Int := ((env.ws_row / 2 : Nat) : Int)
  Run.after [Event.ioctl_TIOCGWINSZ fd, Event.write fd ANSI_BRIGHT_BLUE_BACKGROUND] <|
  Run.after (if env.write_background_r < 0 then
      [Event.printf "Failed to set terminal background colour t blue, ignoring: %s\n"]
    else []) <|
  Run.after [Event.write fd ANSI_HOME_CLEAR] <|
  Run.after (if env.write_clear_r < 0 then
      [Event.printf "Failed to clear terminal, ignoring: %s\n"]
    else []) <|
  let cursor := set_cursor_row env.write_cursor_r fd mid_row
  Run.after cursor.2 <|
  if cursor.1 < 0 then ⟨some (-1), [Event.close fd]⟩ else
  match message with
  | none => ⟨none, []⟩
  | some message =>
  Run.after [Event.write fd (c_string message)] <|
  if env.write_message_r < 0 then
    ⟨some (-1), [Event.printf "Failed to write emergency message to terminal: %s\n",
      Event.close fd]⟩ else
  match message_id with
  | none => ⟨none, []⟩
  | some message_id =>
  Run.after [Event.write fd (c_string message_id)] <|
  if env.write_message_id_r < 0 then
    ⟨some (-1), [Event.printf "Failed to write emergency message_id to terminal: %s\n",
      Event.close fd]⟩ else
  Run.after [Event.fdopen fd] <|
  if !env.fdopen_ok then
    ⟨some (-1), [Event.printf "Failed to open stream: %s\n", Event.close fd]⟩ else
  Run.after [Event.fgetc fd] <|
  Run.after (if env.fgetc_r = -1 then [Event.printf "Failled to read character\n"] else []) <|
  Run.after [Event.ioctl_VT_ACTIVATE fd original_vt] <|
  if env.activate_original_r < 0 then
    ⟨some (-1), [Event.printf "Failed to switch back to original VT: %s\n",
      Event.close fd, Event.fclose fd]⟩ else
  ⟨some 0, [Event.fclose fd]⟩

/-! ## The journal selector -/

/-- The answers of the journal library and of the allocator to the calls of
`acquire_first_emergency_log_message`. -/
structure JournalEnv where
  /-- The result of sd_journal_open. -/
  open_r : Int
  /-- The result of sd_id128_get_boot. -/
  boot_r : Int
  /-- The 32 hexadecimal digits SD_ID128_FORMAT_STR renders the boot id as. -/
  boot_id_hex : Bytes
  /-- The results of the three sd_journal_add_match calls. -/
  match_boot_r : Int
  match_uid_r : Int
  match_priority_r : Int
  /-- The result of sd_journal_seek_head. -/
  seek_r : Int
  /-- The result of call number k (from 0) of sd_journal_next. -/
  next_r : Nat → Int
  /-- The result of call number k (from 0) of sd_journal_wait. -/
  wait_r : Nat → Int
  /-- The result of sd_journal_get_data for MESSAGE, and the datum it hands out. -/
  message_r : Int
  message_d : Bytes
  /-- Whether the allocation of the message succeeds. -/
  message_malloc_ok : Bool
  /-- The result of sd_journal_get_data for MESSAGE_ID, and the datum it hands out. -/
  message_id_r : Int
  message_id_d : Bytes
  /-- Whether the allocation of the identifier succeeds. -/
  message_id_malloc_ok : Bool

/-- The result of `acquire_first_emergency_log_message`: its return value, the
values of `*ret_message` and `*ret_message_id` when it returns (`none` is
`NULL`), and the calls it made. -/
structure Acquired where
  ret : Int
  message : Option Bytes
  message_id : Option Bytes
  trace : List Event
  deriving DecidableEq

/-- The result `a` preceded by the calls `evs`. -/
def Acquired.after (evs : List Event) (a : Acquired) : Acquired :=
  ⟨a.ret, a.message, a.message_id, evs ++ a.trace⟩

/-- The subtraction of `size_t` values (64 bits), which wraps around. -/
def size_sub (a b : Nat) : Nat := (a + 2 ^ 64 - b % 2 ^ 64) % 2 ^ 64

/-- Lines 138 to 166 of `acquire_first_emergency_log_message`: what it does
once `sd_journal_next` has selected a record.  `m0` and `id0` are the values
of `*ret_message` and `*ret_message_id` on entry.  A datum is given by its
bytes, `l` being their number; the copy is the model of the C code as long as
the datum has the `FIELD=` bytes in front (at least 8, resp. 11 bytes). -/
def extract_fields (env : JournalEnv) (m0 id0 : Option Bytes) : Acquired :=
  let r := env.message_r
  Acquired.after [Event.sd_journal_get_data "MESSAGE"] <|
  if r < 0 then
    ⟨r, m0, id0, [Event.printf "Failed to read journal message\n", Event.sd_journal_close]⟩
  else
  let d := env.message_d
  let l := d.length
  let ret_message := memdup_suffix0 env.message_malloc_ok
    (d.drop ("MESSAGE=".length)) (size_sub l ("MESSAGE=".length))
  Acquired.after [Event.malloc ((size_sub l ("MESSAGE=".length) + 1) % 2 ^ 64)] <|
  if ret_message.isNone then
    ⟨-1, ret_message, id0, [Event.printf "Out of memory\n", Event.sd_journal_close]⟩
  else
  let r := env.message_id_r
  Acquired.after [Event.sd_journal_get_data "MESSAGE_ID"] <|
  Acquired.after (if r < 0 then [Event.printf "Failed to read journal message id\n"]
    else []) <|
  if r > 0 then
    let d := env.message_id_d
    let l := d.length
    let ret_message_id := memdup_suffix0 env.message_id_malloc_ok
      (d.drop ("MESSAGE_ID=".length)) (size_sub l ("MESSAGE_ID=".length))
    Acquired.after [Event.malloc ((size_sub l ("MESSAGE_ID=".length) + 1) % 2 ^ 64)] <|
    if ret_message_id.isNone then
      ⟨-1, ret_message, ret_message_id, [Event.printf "Out of memory\n",
        Event.sd_journal_close]⟩
    else ⟨0, ret_message, ret_message_id, [Event.sd_journal_close]⟩
  else ⟨0, ret_message, id0, [Event.sd_journal_close]⟩

/-- The `for (;;)` loop of `acquire_first_emergency_log_message` followed by
the rest of the function; `k` counts the iterations done so far, `fuel` bounds
the iterations still allowed (`none`: the loop is still going on when the fuel
is used up). -/
def advance (env : JournalEnv) (is_wait : Bool) (m0 id0 : Option Bytes) :
    Nat → Nat → Option Acquired
  | 0, _ => none
  | fuel + 1, k =>
    let r := env.next_r k
    Option.map (Acquired.after [Event.sd_journal_next]) <|
    if r < 0 then
      some ⟨r, m0, id0, [Event.printf "Failed to read next journal entry\n",
        Event.sd_journal_close]⟩
    else if r = 0 then
      if is_wait then
        let r := env.wait_r k
        Option.map (Acquired.after [Event.sd_journal_wait]) <|
        if r < 0 then
          some ⟨r, m0, id0, [Event.printf "Failed to read next journal entry\n",
            Event.sd_journal_close]⟩
        else advance env is_wait m0 id0 fuel (k + 1)
      else
        some ⟨0, m0, id0, [Event.printf "No entries in the journal\n",
          Event.sd_journal_close]⟩
    else some (extract_fields env m0 id0)

/-- `acquire_first_emergency_log_message`; `m0` and `id0` are the values of
`*ret_message` and `*ret_message_id` on entry, `fuel` bounds the iterations of
the loop. -/
def acquire_first_emergency_log_message (env : JournalEnv) (m0 id0 : Option Bytes)
    (is_wait : Bool) (fuel : Nat) : Option Acquired :=
  let r := env.open_r
  Option.map (Acquired.after [Event.sd_journal_open r]) <|
  if r < 0 then some ⟨r, m0, id0, [Event.printf "Failed to open journal\n"]⟩ else
  let r := env.boot_r
  Option.map (Acquired.after [Event.sd_id128_get_boot]) <|
  if r < 0 then
    some ⟨r, m0, id0, [Event.printf "Failed to get boot ID\n", Event.sd_journal_close]⟩ else
  let boot_id_filter := cstr "_BOOT_ID=" ++ env.boot_id_hex
  let r := env.match_boot_r
  Option.map (Acquired.after [Event.sd_journal_add_match boot_id_filter]) <|
  if r < 0 then
    some ⟨r, m0, id0, [Event.printf "Failed to add boot ID filter\n",
      Event.sd_journal_close]⟩ else
  let r := env.match_uid_r
  Option.map (Acquired.after [Event.sd_journal_add_match (cstr "_UID=0")]) <|
  if r < 0 then
    some ⟨r, m0, id0, [Event.printf "Failed to add User ID filter\n",
      Event.sd_journal_close]⟩ else
  let r := env.match_priority_r
  Option.map (Acquired.after [Event.sd_journal_add_match (cstr "PRIORITY=0")]) <|
  if r < 0 then
    some ⟨r, m0, id0, [Event.printf "Failed to add Emergency filter\n",
      Event.sd_journal_close]⟩ else
  let r := env.seek_r
  Option.map (Acquired.after [Event.sd_journal_seek_head]) <|
  if r < 0 then
    some ⟨r, m0, id0, [Event.printf "Failed to seek to start of journal\n",
      Event.sd_journal_close]⟩ else
  advance env is_wait m0 id0 fuel 0

/-- The calls of the selector before its loop, when all of them succeed. -/
def setup_calls (env : JournalEnv) : List Event :=
  [Event.sd_journal_open env.open_r, Event.sd_id128_get_boot,
   Event.sd_journal_add_match (cstr "_BOOT_ID=" ++ env.boot_id_hex),
   Event.sd_journal_add_match (cstr "_UID=0"),
   Event.sd_journal_add_match (cstr "PRIORITY=0"),
   Event.sd_journal_seek_head]

/-! ## The entry point -/

/-- Lines 283 to 297 of `main`: what it does with the result `a` of the
selector.  `printf` of a `NULL` string prints a placeholder and goes on.  When
the selector left `message_id` `NULL`, line 289 points it at the string
literal "0000" and line 296 hands that literal to `free`: the C library aborts
the process there, and `main` does not return. -/
def main_after_acquire (tenv : TtyEnv) (a : Acquired) : Run :=
  let message := a.message
  let message_id := a.message_id
  let r := a.ret
  if r < 0 then
    ⟨some (-1), a.trace ++ [Event.printf "Failed to acquire emergency log message\n"]⟩
  else
  let is_literal := message_id.isNone
  let message_id := if message_id.isNone then some (cstr "0000" ++ [0]) else message_id
  let shown := display_emergency_message_fullscreen tenv message message_id
  let before := a.trace ++ [Event.printf "THIS IS THE LOG MESSAGE: %s\n",
    Event.printf "THIS IS THE MESSAGE_ID: %s\n"] ++ shown.trace
  match shown.ret with
  | none => ⟨none, before⟩
  | some r =>
    let freed := before ++
      (if r < 0 then [Event.printf "Failed to display emergency message on terminal:"]
        else []) ++ [Event.free message, Event.free message_id]
    if is_literal then ⟨none, freed⟩ else ⟨some r, freed⟩

/-- `main`: the selector is called with `is_wait` true and with both strings
`NULL`; `none` when the selector is still waiting after `fuel` iterations. -/
def main (jenv : JournalEnv) (tenv : TtyEnv) (fuel : Nat) : Option Run :=
  Option.map (main_after_acquire tenv)
    (acquire_first_emergency_log_message jenv none none true fuel)

/-! ## What a trace shows -/

/-- The path of an `open` call. -/
def Event.opened : Event → Option Bytes
  | Event.open_tty path _ => some path
  | _ => none

/-- The paths given to `open`, in order. -/
def opened_paths (trace : List Event) : List Bytes := trace.filterMap Event.opened

/-- The VT number of a `VT_ACTIVATE` ioctl. -/
def Event.activates : Event → Option Int
  | Event.ioctl_VT_ACTIVATE _ vt => some vt
  | _ => none

/-- The VT numbers given to the `VT_ACTIVATE` ioctl, in order. -/
def activated (trace : List Event) : List Int := trace.filterMap Event.activates

/-- The descriptor and the bytes of a `write` call. -/
def Event.written : Event → Option (Int × Bytes)
  | Event.write fd data => some (fd, data)
  | _ => none

/-- The `write` calls, in order: descriptor and bytes. -/
def writes (trace : List Event) : List (Int × Bytes) := trace.filterMap Event.written

/-- The format of a `printf` call. -/
def Event.printed : Event → Option String
  | Event.printf format => some format
  | _ => none

/-- The formats of the `printf` calls, in order. -/
def printed (trace : List Event) : List String := trace.filterMap Event.printed

/-- The descriptors open after one more call: a successful `open` adds its
result, `close` and `fclose` remove theirs. -/
def fd_step (fds : List Int) : Event → List Int
  | Event.open_tty _ fd => if fd < 0 then fds else fd :: fds
  | Event.close fd => fds.erase fd
  | Event.fclose fd => fds.erase fd
  | _ => fds

/-- The descriptors a trace leaves open. -/
def open_fds (trace : List Event) : List Int := trace.foldl fd_step []

/-- Whether the journal session is open after one more call: a successful
`sd_journal_open` opens it, `sd_journal_close` closes it. -/
def journal_step (is_open : Bool) : Event → Bool
  | Event.sd_journal_open r => if r < 0 then is_open else true
  | Event.sd_journal_close => false
  | _ => is_open

/-- Whether a trace leaves the journal session open. -/
def journal_is_open (trace : List Event) : Bool := trace.foldl journal_step false

/-! ## Concrete runs -/

/-- A console on which every call succeeds: bits 0 to 6 of `v_state` set,
VT 1 active, 24 rows, descriptor 3 for both `open` calls, a line feed as acknowledgement. -/
def tty_ok : TtyEnv where
  v_state_bits := 16
  open_tty1 := 3
  getstate_r := 0
  getstate_errno := 0
  st := ⟨1, 0x7F⟩
  open_target := 3
  activate_target_r := 0
  ws_row := 24
  write_background_r := 5
  write_clear_r := 7
  write_cursor_r := 5
  write_message_r := 4
  write_message_id_r := 4
  fdopen_ok := true
  fgetc_r := 10
  activate_original_r := 0

/-- The console `tty_ok` with all 16 bits of `v_state` set. -/
def tty_all_busy : TtyEnv := { tty_ok with st := ⟨1, 0xFFFF⟩ }

/-- The console `tty_ok` with VT 3 active and bits 0, 1 and 3 of `v_state`
set: bit 2 is the lowest clear one. -/
def tty_active_3 : TtyEnv := { tty_ok with st := ⟨3, 0b1011⟩ }

/-- The console `tty_ok` with a window of one row. -/
def tty_one_row : TtyEnv := { tty_ok with ws_row := 1 }

/-- The console `tty_ok` with a window of no rows. -/
def tty_no_rows : TtyEnv := { tty_ok with ws_row := 0 }

/-- The console `tty_ok` on which the switch back to the original VT fails. -/
def tty_restore_fails : TtyEnv := { tty_ok with activate_original_r := -1 }

/-- The buffer of the C string "boom". -/
def boom : Bytes := cstr "boom" ++ [0]

/-- The buffer of the C string "0000". -/
def zeros : Bytes := cstr "0000" ++ [0]

/-- A journal on which every call succeeds and whose first record has the
fields `MESSAGE=boom` and `MESSAGE_ID=abc`; the field reads return 0, as
`sd_journal_get_data` does on success. -/
def journal_ok : JournalEnv where
  open_r := 0
  boot_r := 0
  boot_id_hex := cstr "0123456789abcdef0123456789abcdef"
  match_boot_r := 0
  match_uid_r := 0
  match_priority_r := 0
  seek_r := 0
  next_r := fun _ => 1
  wait_r := fun _ => 1
  message_r := 0
  message_d := cstr "MESSAGE=boom"
  message_malloc_ok := true
  message_id_r := 0
  message_id_d := cstr "MESSAGE_ID=abc"
  message_id_malloc_ok := true

/-- The journal `journal_ok` with a positive result of the `MESSAGE_ID` read. -/
def journal_positive_id : JournalEnv := { journal_ok with message_id_r := 1 }

/-- The journal `journal_ok` whose record has the bare field `MESSAGE=`. -/
def journal_bare_message : JournalEnv := { journal_ok with message_d := cstr "MESSAGE=" }

/-- The journal `journal_ok` with no record at the first advancement and the
record at the second one. -/
def journal_late : JournalEnv := { journal_ok with next_r := fun k => if k = 0 then 0 else 1 }

/-- The journal `journal_late` with a positive result of the `MESSAGE_ID` read. -/
def journal_late_id : JournalEnv := { journal_late with message_id_r := 1 }

/-- The buffer of the C string "abc". -/
def abc : Bytes := cstr "abc" ++ [0]

/-- What the selector returns on the journal `journal_positive_id`, in wait
mode. -/
def acquired_with_id : Acquired :=
  ⟨0, some (cstr "boom" ++ [0]), some (cstr "abc" ++ [0]),
    [Event.sd_journal_open 0, Event.sd_id128_get_boot,
     Event.sd_journal_add_match (cstr "_BOOT_ID=0123456789abcdef0123456789abcdef"),
     Event.sd_journal_add_match (cstr "_UID=0"),
     Event.sd_journal_add_match (cstr "PRIORITY=0"),
     Event.sd_journal_seek_head, Event.sd_journal_next,
     Event.sd_journal_get_data "MESSAGE", Event.malloc 5,
     Event.sd_journal_get_data "MESSAGE_ID", Event.malloc 4, Event.sd_journal_close]⟩

/-- The console `tty_ok` with VT 5 active and bits 0 and 1 of `v_state` set. -/
def tty_active_5 : TtyEnv := { tty_ok with st := ⟨5, 0b00011⟩ }

/-- The result the selector hands out on its non-wait return: 0, both strings
still `NULL`. -/
def empty_outcome : Acquired := ⟨0, none, none, []⟩

/-- What the selector returns on the journal `journal_ok`, in wait mode. -/
def acquired_ok : Acquired :=
  ⟨0, some (cstr "boom" ++ [0]), none,
    [Event.sd_journal_open 0, Event.sd_id128_get_boot,
     Event.sd_journal_add_match (cstr "_BOOT_ID=0123456789abcdef0123456789abcdef"),
     Event.sd_journal_add_match (cstr "_UID=0"),
     Event.sd_journal_add_match (cstr "PRIORITY=0"),
     Event.sd_journal_seek_head, Event.sd_journal_next,
     Event.sd_journal_get_data "MESSAGE", Event.malloc 5,
     Event.sd_journal_get_data "MESSAGE_ID", Event.sd_journal_close]⟩

/-! ## The free-VT scan -/

/-- The test of the scan is the test of bit `i`. -/
theorem land_shift_eq_zero_iff (v i : Nat) :
    v &&& (1 <<< i) = 0 ↔ v.testBit i = false := by
  rw [Nat.one_shiftLeft]
  constructor
  · intro h
    have h1 : (v &&& 2 ^ i).testBit i = false := by rw [h]; exact Nat.zero_testBit i
    rw [Nat.testBit_and, Nat.testBit_two_pow_self, Bool.and_true] at h1
    exact h1
  · intro h
    apply Nat.eq_of_testBit_eq
    intro j
    rw [Nat.testBit_and, Nat.testBit_two_pow, Nat.zero_testBit]
    by_cases hij : i = j
    · subst hij; simp [h]
    · simp [hij]

/-- The scan stops at the lowest clear bit at or above `i`, when there is one
among the `remaining` indices from `i` on. -/
theorem scan_from_spec (v : Nat) :
    ∀ (remaining i : Nat), (∃ j, i ≤ j ∧ j < i + remaining ∧ v.testBit j = false) →
      i ≤ scan_from v remaining i ∧ scan_from v remaining i < i + remaining ∧
      v.testBit (scan_from v remaining i) = false ∧
      ∀ j, i ≤ j → j < scan_from v remaining i → v.testBit j = true := by
  intro remaining
  induction remaining with
  | zero =>
    intro i h
    obtain ⟨j, h1, h2, _⟩ := h
    omega
  | succ n ih =>
    intro i h
    obtain ⟨j, h1, h2, h3⟩ := h
    by_cases hb : v &&& (1 <<< i) = 0
    · have hi : v.testBit i = false := (land_shift_eq_zero_iff v i).1 hb
      simp only [scan_from, hb, if_true]
      refine ⟨le_refl i, by omega, hi, ?_⟩
      intro j hj1 hj2
      omega
    · have hi : v.testBit i = true := by
        cases hc : v.testBit i with
        | false => exact absurd ((land_shift_eq_zero_iff v i).2 hc) hb
        | true => rfl
      have hne : j ≠ i := by
        intro hji
        rw [hji, hi] at h3
        exact Bool.noConfusion h3
      have hrec := ih (i + 1) ⟨j, by omega, by omega, h3⟩
      simp only [scan_from, hb, if_false]
      obtain ⟨r1, r2, r3, r4⟩ := hrec
      refine ⟨by omega, by omega, r3, ?_⟩
      intro j2 hj1 hj2
      by_cases hj : j2 = i
      · rw [hj]; exact hi
      · exact r4 j2 (by omega) hj2

/-- With every scanned bit set the scan runs to the end of the word. -/
theorem scan_from_all_set (v : Nat) :
    ∀ (remaining i : Nat), (∀ j, i ≤ j → j < i + remaining → v.testBit j = true) →
      scan_from v remaining i = i + remaining := by
  intro remaining
  induction remaining with
  | zero => intro i _; rfl
  | succ n ih =>
    intro i h
    have hi : v.testBit i = true := h i (le_refl i) (by omega)
    have hb : ¬ (v &&& (1 <<< i) = 0) := by
      intro hb
      rw [(land_shift_eq_zero_iff v i).1 hb] at hi
      exact Bool.noConfusion hi
    simp only [scan_from, hb, if_false]
    rw [ih (i + 1) (fun j h1 h2 => h j (by omega) (by omega))]
    omega

theorem find_next_free_vt_ok (nbits : Nat) (ioctl_r errno : Int) (st : vt_stat)
    (f0 o0 : Int) (hok : 0 ≤ ioctl_r) :
    find_next_free_vt nbits ioctl_r errno st f0 o0
      = (0, ((scan_from st.v_state nbits 0 : Nat) : Int), (st.v_active : Int)) := by
  have h : ¬ ioctl_r < 0 := by omega
  simp [find_next_free_vt, h]

@[simp]
theorem Run.run_trace_after (evs : List Event) (r : Run) :
    (Run.after evs r).trace = evs ++ r.trace := rfl

@[simp]
theorem Run.run_ret_after (evs : List Event) (r : Run) :
    (Run.after evs r).ret = r.ret := rfl

/-- The two `open` calls of every run of the presenter that gets past the
inventory. -/
theorem display_opened_paths (env : TtyEnv) (message message_id : Option Bytes)
    (hopen : 0 ≤ env.open_tty1) (hstate : 0 ≤ env.getstate_r) :
    opened_paths (display_emergency_message_fullscreen env message message_id).trace
      = [cstr "/dev/tty1", cstr "/dev/tty" ++
          fmt_d (((scan_from env.st.v_state env.v_state_bits 0 : Nat) : Int) + 1)] := by
  have h1 : ¬ env.open_tty1 < 0 := by omega
  have h2 : ¬ (0 : Int) < 0 := by omega
  simp only [display_emergency_message_fullscreen, find_next_free_vt_ok _ _ _ _ _ _ hstate,
    h1, h2, if_false, Run.run_trace_after, opened_paths, List.filterMap_append, set_cursor_row,
    apply_ite Run.trace, apply_ite Prod.snd, apply_ite (List.filterMap Event.opened),
    List.filterMap_cons, List.filterMap_nil, Event.opened]
  cases message <;> cases message_id <;>
    simp only [apply_ite Run.trace, Run.run_trace_after, apply_ite (List.filterMap Event.opened),
      List.filterMap_append, List.filterMap_cons, List.filterMap_nil, Event.opened, ite_self,
      List.append_nil, List.nil_append, List.singleton_append]

/-- The first `VT_ACTIVATE` of a run that opened the target VT is for the
number one above the scan result. -/
theorem display_activated_head (env : TtyEnv) (message message_id : Option Bytes)
    (hopen : 0 ≤ env.open_tty1) (hstate : 0 ≤ env.getstate_r)
    (htarget : 0 ≤ env.open_target) :
    (activated (display_emergency_message_fullscreen env message message_id).trace).head?
      = some (((scan_from env.st.v_state env.v_state_bits 0 : Nat) : Int) + 1) := by
  have h1 : ¬ env.open_tty1 < 0 := by omega
  have h2 : ¬ (0 : Int) < 0 := by omega
  have h3 : ¬ env.open_target < 0 := by omega
  simp only [display_emergency_message_fullscreen, find_next_free_vt_ok _ _ _ _ _ _ hstate,
    h1, h2, h3, if_false, Run.run_trace_after, activated, List.filterMap_append,
    List.filterMap_cons, List.filterMap_nil, Event.activates, List.nil_append,
    List.singleton_append, List.head?_cons]

/-- C1: when the state word has a clear bit among the scanned ones,
`find_next_free_vt` returns 0 and stores in `free_vt` the lowest index `i`
whose bit is clear (bit `i` clear, every lower bit set), so the target is not
a VT marked busy, and the device the presenter opens is `/dev/tty(i+1)`. -/
theorem C1_lowest_free_vt (env : TtyEnv) (message message_id : Option Bytes)
    (free_vt original_vt : Int)
    (hopen : 0 ≤ env.open_tty1) (hstate : 0 ≤ env.getstate_r)
    (hfree : ∃ j, j < env.v_state_bits ∧ env.st.v_state.testBit j = false) :
    ∃ i : Nat, i < env.v_state_bits ∧
      find_next_free_vt env.v_state_bits env.getstate_r env.getstate_errno env.st
        free_vt original_vt = (0, (i : Int), (env.st.v_active : Int)) ∧
      env.st.v_state.testBit i = false ∧
      (∀ j, j < i → env.st.v_state.testBit j = true) ∧
      opened_paths (display_emergency_message_fullscreen env message message_id).trace
        = [cstr "/dev/tty1", cstr "/dev/tty" ++ fmt_d ((i : Int) + 1)] := by
  obtain ⟨j, hj, hbit⟩ := hfree
  have hscan := scan_from_spec env.st.v_state env.v_state_bits 0
    ⟨j, Nat.zero_le j, by omega, hbit⟩
  obtain ⟨_, s2, s3, s4⟩ := hscan
  refine ⟨scan_from env.st.v_state env.v_state_bits 0, by omega,
    find_next_free_vt_ok _ _ _ _ _ _ hstate, s3, ?_,
    display_opened_paths env message message_id hopen hstate⟩
  intro j2 hj2
  exact s4 j2 (Nat.zero_le j2) hj2

/-- C1 at the console `tty_ok` (bits 0 to 6 set): the scan yields 7. -/
theorem C1_lowest_free_vt_witness :
    ∃ i : Nat, i < tty_ok.v_state_bits ∧
      find_next_free_vt tty_ok.v_state_bits tty_ok.getstate_r tty_ok.getstate_errno tty_ok.st
        (-1) (-1) = (0, (i : Int), (tty_ok.st.v_active : Int)) ∧
      tty_ok.st.v_state.testBit i = false ∧
      (∀ j, j < i → tty_ok.st.v_state.testBit j = true) ∧
      opened_paths (display_emergency_message_fullscreen tty_ok (some boom) (some zeros)).trace
        = [cstr "/dev/tty1", cstr "/dev/tty" ++ fmt_d ((i : Int) + 1)] :=
  C1_lowest_free_vt tty_ok (some boom) (some zeros) (-1) (-1) (by decide) (by decide)
    ⟨7, by decide, by decide⟩

/-- C3: with all 16 bits of the state word set the scan leaves the loop with
`i = 16`; `find_next_free_vt` returns 0 with `free_vt = 16`, and the presenter
opens `/dev/tty17`, activates VT 17 and goes on to a return value of 0. -/
theorem C3_all_busy_opens_tty17 :
    find_next_free_vt 16 0 0 ⟨1, 0xFFFF⟩ (-1) (-1) = (0, 16, 1) ∧
    (display_emergency_message_fullscreen tty_all_busy (some boom) (some zeros)).ret = some 0 ∧
    opened_paths (display_emergency_message_fullscreen tty_all_busy (some boom) (some zeros)).trace
      = [cstr "/dev/tty1", cstr "/dev/tty17"] ∧
    activated (display_emergency_message_fullscreen tty_all_busy (some boom) (some zeros)).trace
      = [17, 1] := by
  decide

/-- C7, as stated, fails: with VT 3 active and bits 0, 1 and 3 set the lowest
clear bit is 2, and the VT the presenter opens and activates is number 3, the
original VT itself. -/
theorem C7_target_equals_original :
    find_next_free_vt 16 0 0 ⟨3, 0b1011⟩ (-1) (-1) = (0, 2, 3) ∧
    opened_paths (display_emergency_message_fullscreen tty_active_3 (some boom) (some zeros)).trace
      = [cstr "/dev/tty1", cstr "/dev/tty3"] ∧
    activated (display_emergency_message_fullscreen tty_active_3 (some boom) (some zeros)).trace
      = [3, 3] ∧
    ((tty_active_3.st.v_active : Nat) : Int) = 3 := by
  decide

/-- C7, amended: when the snapshot has a clear bit among the scanned ones and
the presenter opens a target VT, the VT number it opens and activates is
`i + 1` for the lowest clear bit `i` of the snapshot (bit `i` clear, every
lower bit set: free under the reading bit `i` for VT `i + 1`); it is equal to
`original_vt` exactly when bit `original_vt - 1` is that lowest clear bit, and
different from it in every other case. -/
theorem C7_target_vt_free (env : TtyEnv) (message message_id : Option Bytes)
    (hopen : 0 ≤ env.open_tty1) (hstate : 0 ≤ env.getstate_r)
    (htarget : 0 ≤ env.open_target)
    (hfree : ∃ j, j < env.v_state_bits ∧ env.st.v_state.testBit j = false) :
    ∃ i : Nat, i < env.v_state_bits ∧ env.st.v_state.testBit i = false ∧
      (∀ j, j < i → env.st.v_state.testBit j = true) ∧
      opened_paths (display_emergency_message_fullscreen env message message_id).trace
        = [cstr "/dev/tty1", cstr "/dev/tty" ++ fmt_d ((i : Int) + 1)] ∧
      (activated (display_emergency_message_fullscreen env message message_id).trace).head?
        = some ((i : Int) + 1) ∧
      ((i : Int) + 1 = (env.st.v_active : Int) ↔
        (1 ≤ env.st.v_active ∧ env.st.v_state.testBit (env.st.v_active - 1) = false ∧
          ∀ j, j < env.st.v_active - 1 → env.st.v_state.testBit j = true)) := by
  obtain ⟨j, hj, hbit⟩ := hfree
  have hscan := scan_from_spec env.st.v_state env.v_state_bits 0
    ⟨j, Nat.zero_le j, by omega, hbit⟩
  obtain ⟨_, s2, s3, s4⟩ := hscan
  have hlow : ∀ j2, j2 < scan_from env.st.v_state env.v_state_bits 0 →
      env.st.v_state.testBit j2 = true := fun j2 h2 => s4 j2 (Nat.zero_le j2) h2
  refine ⟨scan_from env.st.v_state env.v_state_bits 0, by omega, s3, hlow,
    display_opened_paths env message message_id hopen hstate,
    display_activated_head env message message_id hopen hstate htarget, ?_⟩
  constructor
  · intro heq
    have hidx : env.st.v_active - 1 = scan_from env.st.v_state env.v_state_bits 0 := by omega
    refine ⟨by omega, ?_, ?_⟩
    · rw [hidx]; exact s3
    · intro j2 hj2
      exact hlow j2 (by omega)
  · intro hcase
    obtain ⟨hact, hclear, hbelow⟩ := hcase
    have hidx : env.st.v_active - 1 = scan_from env.st.v_state env.v_state_bits 0 := by
      rcases Nat.lt_trichotomy (env.st.v_active - 1)
        (scan_from env.st.v_state env.v_state_bits 0) with h | h | h
      · have := hlow _ h
        rw [hclear] at this
        exact Bool.noConfusion this
      · exact h
      · have := hbelow _ h
        rw [s3] at this
        exact Bool.noConfusion this
    omega

/-- C7, amended, at the console with VT 5 active and bits 0 and 1 set: VT 3 is
opened and activated, and it is not the original VT. -/
theorem C7_target_vt_free_witness :
    ∃ i : Nat, i < tty_active_5.v_state_bits ∧ tty_active_5.st.v_state.testBit i = false ∧
      (∀ j, j < i → tty_active_5.st.v_state.testBit j = true) ∧
      opened_paths
        (display_emergency_message_fullscreen tty_active_5 (some boom) (some zeros)).trace
        = [cstr "/dev/tty1", cstr "/dev/tty" ++ fmt_d ((i : Int) + 1)] ∧
      (activated
        (display_emergency_message_fullscreen tty_active_5 (some boom) (some zeros)).trace).head?
        = some ((i : Int) + 1) ∧
      ((i : Int) + 1 = (tty_active_5.st.v_active : Int) ↔
        (1 ≤ tty_active_5.st.v_active ∧
          tty_active_5.st.v_state.testBit (tty_active_5.st.v_active - 1) = false ∧
          ∀ j, j < tty_active_5.st.v_active - 1 → tty_active_5.st.v_state.testBit j = true)) :=
  C7_target_vt_free tty_active_5 (some boom) (some zeros) (by decide) (by decide) (by decide)
    ⟨2, by decide, by decide⟩

/-- C8: on a run of the presenter in which the consoles are opened, the target
is activated and all five writes succeed, the writes are, in this order and
with nothing else, `ESC[44m`, `ESC[H ESC[2J`, `ESC[<r>H` with `<r>` the `%d`
rendering of `rows / 2` as computed, the message bytes and the identifier
bytes, all to the descriptor of the target VT. -/
theorem C8_paint_sequence (env : TtyEnv) (message message_id : Bytes)
    (hopen : 0 ≤ env.open_tty1) (hstate : 0 ≤ env.getstate_r)
    (htarget : 0 ≤ env.open_target) (hactivate : 0 ≤ env.activate_target_r)
    (hw1 : 0 ≤ env.write_background_r) (hw2 : 0 ≤ env.write_clear_r)
    (hw3 : 0 ≤ env.write_cursor_r) (hw4 : 0 ≤ env.write_message_r)
    (hw5 : 0 ≤ env.write_message_id_r) :
    writes (display_emergency_message_fullscreen env (some message) (some message_id)).trace
      = [(env.open_target, cstr "\x1B[44m"),
         (env.open_target, cstr "\x1B[H\x1B[2J"),
         (env.open_target, cstr "\x1B[" ++ fmt_d ((env.ws_row / 2 : Nat) : Int) ++ cstr "H"),
         (env.open_target, c_string message),
         (env.open_target, c_string message_id)] ∧
    (env.ws_row = 1 →
      cstr "\x1B[" ++ fmt_d ((env.ws_row / 2 : Nat) : Int) ++ cstr "H" = cstr "\x1B[0H") := by
  have h1 : ¬ env.open_tty1 < 0 := by omega
  have h2 : ¬ (0 : Int) < 0 := by omega
  have h3 : ¬ env.open_target < 0 := by omega
  have h4 : ¬ env.activate_target_r < 0 := by omega
  have h5 : ¬ env.write_background_r < 0 := by omega
  have h6 : ¬ env.write_clear_r < 0 := by omega
  have h7 : ¬ env.write_cursor_r < 0 := by omega
  have h8 : ¬ env.write_message_r < 0 := by omega
  have h9 : ¬ env.write_message_id_r < 0 := by omega
  constructor
  · simp only [display_emergency_message_fullscreen, find_next_free_vt_ok _ _ _ _ _ _ hstate,
      set_cursor_row, h1, h2, h3, h4, h5, h6, h7, h8, h9, if_false, Run.run_trace_after, writes,
      List.filterMap_append, List.filterMap_cons, List.filterMap_nil, Event.written,
      apply_ite Run.trace, apply_ite (List.filterMap Event.written), ite_self,
      List.nil_append, List.append_nil, List.singleton_append, List.cons_append,
      ANSI_BRIGHT_BLUE_BACKGROUND, ANSI_HOME_CLEAR]
  · intro h
    rw [h]
    decide

/-- C8 at the console with one row: the cursor sequence is `ESC[0H`. -/
theorem C8_paint_sequence_witness :
    writes (display_emergency_message_fullscreen tty_one_row (some boom) (some zeros)).trace
      = [(3, cstr "\x1B[44m"), (3, cstr "\x1B[H\x1B[2J"), (3, cstr "\x1B[0H"),
         (3, cstr "boom"), (3, cstr "0000")] :=
  (C8_paint_sequence tty_one_row boom zeros (by decide) (by decide) (by decide) (by decide)
    (by decide) (by decide) (by decide) (by decide) (by decide)).1

/-- C9, as stated, fails: with `rows = 0` the cursor sequence written is
`ESC[0H`, not `ESC[12H`. -/
theorem C9_zero_rows_not_defaulted :
    writes (display_emergency_message_fullscreen tty_no_rows (some boom) (some zeros)).trace
      = [(3, cstr "\x1B[44m"), (3, cstr "\x1B[H\x1B[2J"), (3, cstr "\x1B[0H"),
         (3, cstr "boom"), (3, cstr "0000")] ∧
    cstr "\x1B[0H" ≠ cstr "\x1B[12H" := by
  decide

/-- C9, amended: when the window size read has `rows = 0` the presenter uses
it as it is, the cursor sequence written is `ESC[0H` (row `0 / 2 = 0`), and
painting goes on with the message and the identifier: the window size never
makes the presenter fail. -/
theorem C9_zero_rows_row_zero (env : TtyEnv) (message message_id : Bytes)
    (hopen : 0 ≤ env.open_tty1) (hstate : 0 ≤ env.getstate_r)
    (htarget : 0 ≤ env.open_target) (hactivate : 0 ≤ env.activate_target_r)
    (hrows : env.ws_row = 0)
    (hw3 : 0 ≤ env.write_cursor_r) (hw4 : 0 ≤ env.write_message_r)
    (hw5 : 0 ≤ env.write_message_id_r) :
    writes (display_emergency_message_fullscreen env (some message) (some message_id)).trace
      = [(env.open_target, cstr "\x1B[44m"),
         (env.open_target, cstr "\x1B[H\x1B[2J"),
         (env.open_target, cstr "\x1B[0H"),
         (env.open_target, c_string message),
         (env.open_target, c_string message_id)] := by
  have h1 : ¬ env.open_tty1 < 0 := by omega
  have h2 : ¬ (0 : Int) < 0 := by omega
  have h3 : ¬ env.open_target < 0 := by omega
  have h4 : ¬ env.activate_target_r < 0 := by omega
  have h7 : ¬ env.write_cursor_r < 0 := by omega
  have h8 : ¬ env.write_message_r < 0 := by omega
  have h9 : ¬ env.write_message_id_r < 0 := by omega
  have hcur : cstr "\x1B[" ++ fmt_d ((0 / 2 : Nat) : Int) ++ cstr "H" = cstr "\x1B[0H" := by
    decide
  simp only [display_emergency_message_fullscreen, find_next_free_vt_ok _ _ _ _ _ _ hstate,
    set_cursor_row, h1, h2, h3, h4, h7, h8, h9, hrows, hcur, if_false, Run.run_trace_after, writes,
    List.filterMap_append, List.filterMap_cons, List.filterMap_nil, Event.written,
    apply_ite Run.trace, apply_ite (List.filterMap Event.written), ite_self,
    List.nil_append, List.append_nil, List.singleton_append, List.cons_append,
    ANSI_BRIGHT_BLUE_BACKGROUND, ANSI_HOME_CLEAR]

/-- C9, amended, at the console with no rows. -/
theorem C9_zero_rows_row_zero_witness :
    writes (display_emergency_message_fullscreen tty_no_rows (some boom) (some zeros)).trace
      = [(tty_no_rows.open_target, cstr "\x1B[44m"),
         (tty_no_rows.open_target, cstr "\x1B[H\x1B[2J"),
         (tty_no_rows.open_target, cstr "\x1B[0H"),
         (tty_no_rows.open_target, c_string boom),
         (tty_no_rows.open_target, c_string zeros)] :=
  C9_zero_rows_row_zero tty_no_rows boom zeros (by decide) (by decide) (by decide) (by decide)
    (by decide) (by decide) (by decide) (by decide)

/-! ## The selector -/

@[simp]
theorem Acquired.acq_ret_after (evs : List Event) (a : Acquired) :
    (Acquired.after evs a).ret = a.ret := rfl

@[simp]
theorem Acquired.acq_message_after (evs : List Event) (a : Acquired) :
    (Acquired.after evs a).message = a.message := rfl

@[simp]
theorem Acquired.acq_message_id_after (evs : List Event) (a : Acquired) :
    (Acquired.after evs a).message_id = a.message_id := rfl

@[simp]
theorem Acquired.acq_trace_after (evs : List Event) (a : Acquired) :
    (Acquired.after evs a).trace = evs ++ a.trace := rfl

theorem Acquired.after_after (e1 e2 : List Event) (a : Acquired) :
    Acquired.after e1 (Acquired.after e2 a) = Acquired.after (e1 ++ e2) a := by
  simp [Acquired.after]

/-- With a successful set-up the selector is its loop, after the set-up calls. -/
theorem acquire_setup_ok (env : JournalEnv) (m0 id0 : Option Bytes) (is_wait : Bool)
    (fuel : Nat) (h1 : 0 ≤ env.open_r) (h2 : 0 ≤ env.boot_r) (h3 : 0 ≤ env.match_boot_r)
    (h4 : 0 ≤ env.match_uid_r) (h5 : 0 ≤ env.match_priority_r) (h6 : 0 ≤ env.seek_r) :
    acquire_first_emergency_log_message env m0 id0 is_wait fuel
      = Option.map (Acquired.after (setup_calls env)) (advance env is_wait m0 id0 fuel 0) := by
  have g1 : ¬ env.open_r < 0 := by omega
  have g2 : ¬ env.boot_r < 0 := by omega
  have g3 : ¬ env.match_boot_r < 0 := by omega
  have g4 : ¬ env.match_uid_r < 0 := by omega
  have g5 : ¬ env.match_priority_r < 0 := by omega
  have g6 : ¬ env.seek_r < 0 := by omega
  simp only [acquire_first_emergency_log_message, g1, g2, g3, g4, g5, g6, if_false]
  cases advance env is_wait m0 id0 fuel 0 with
  | none => rfl
  | some a => rfl

/-- The loop selects the record of iteration `k + n` after `n` iterations
without a record, which only the wait mode goes through. -/
theorem advance_select (env : JournalEnv) (is_wait : Bool) (m0 id0 : Option Bytes) :
    ∀ (n k fuel : Nat),
      (∀ i, k ≤ i → i < k + n → env.next_r i = 0 ∧ 0 ≤ env.wait_r i) →
      0 < env.next_r (k + n) → (is_wait = true ∨ n = 0) → n < fuel →
      ∃ evs, advance env is_wait m0 id0 fuel k
        = some (Acquired.after evs (extract_fields env m0 id0)) := by
  intro n
  induction n with
  | zero =>
    intro k fuel _ hsel _ hfuel
    obtain ⟨f, rfl⟩ : ∃ f, fuel = f + 1 := ⟨fuel - 1, by omega⟩
    have hsel2 : 0 < env.next_r k := by simpa using hsel
    have g1 : ¬ env.next_r k < 0 := by omega
    have g2 : ¬ env.next_r k = 0 := by omega
    exact ⟨[Event.sd_journal_next], by simp [advance, g1, g2]⟩
  | succ n ih =>
    intro k fuel hskip hsel hmode hfuel
    obtain ⟨f, rfl⟩ : ∃ f, fuel = f + 1 := ⟨fuel - 1, by omega⟩
    have hw : is_wait = true := by
      rcases hmode with h | h
      · exact h
      · omega
    subst hw
    obtain ⟨hk1, hk2⟩ := hskip k (le_refl k) (by omega)
    have g2 : ¬ env.wait_r k < 0 := by omega
    have hsel2 : 0 < env.next_r (k + 1 + n) := by
      have : k + 1 + n = k + (n + 1) := by omega
      rw [this]; exact hsel
    obtain ⟨evs, hevs⟩ := ih (k + 1) f
      (fun i hi1 hi2 => hskip i (by omega) (by omega)) hsel2 (Or.inl rfl) (by omega)
    refine ⟨[Event.sd_journal_next] ++ ([Event.sd_journal_wait] ++ evs), ?_⟩
    simp only [advance, hk1, g2, lt_self_iff_false, if_false, if_true, hevs, Option.map_some',
      Acquired.after_after]

/-- The `size_t` subtraction is the plain one when nothing wraps. -/
theorem size_sub_of_le (a b : Nat) (hb : b ≤ a) (ha : a < 2 ^ 64) : size_sub a b = a - b := by
  have h64 : (2 : Nat) ^ 64 = 18446744073709551616 := by norm_num
  unfold size_sub
  rw [h64] at ha ⊢
  omega

/-- The extraction of a record whose `MESSAGE` datum starts with `MESSAGE=`. -/
theorem extract_fields_message (env : JournalEnv) (m0 id0 : Option Bytes)
    (hread : 0 ≤ env.message_r)
    (hd : env.message_d.take 8 = cstr "MESSAGE=") (hl : env.message_d.length < 2 ^ 64)
    (hmalloc : env.message_malloc_ok = true)
    (hid : 0 < env.message_id_r → env.message_id_malloc_ok = true) :
    (extract_fields env m0 id0).ret = 0 ∧
    (extract_fields env m0 id0).message = some (env.message_d.drop 8 ++ [0]) := by
  have g1 : ¬ env.message_r < 0 := by omega
  have h8 : "MESSAGE=".length = 8 := by decide
  have hlen : 8 ≤ env.message_d.length := by
    have h := congrArg List.length hd
    have hc : (cstr "MESSAGE=").length = 8 := by decide
    rw [List.length_take, hc] at h
    omega
  have hsub : size_sub env.message_d.length 8 = env.message_d.length - 8 :=
    size_sub_of_le _ _ hlen hl
  have htake : List.take (env.message_d.length - 8) (List.drop 8 env.message_d)
      = List.drop 8 env.message_d :=
    List.take_of_length_le (by rw [List.length_drop])
  by_cases hpos : env.message_id_r > 0
  · have hm := hid hpos
    simp [extract_fields, memdup_suffix0, g1, h8, hsub, htake, hmalloc, hpos, hm]
  · simp [extract_fields, memdup_suffix0, g1, h8, hsub, htake, hmalloc, hpos]

/-- C4: when the selector reads a `MESSAGE` datum `d` of `l` bytes that starts
with `MESSAGE=`, it returns 0 and the message is the buffer of `l - 8 + 1`
bytes made of `d[8 .. l)` and a final zero byte; for `l = 8` the buffer is the
single zero byte, the empty C string.  The record is the one of iteration
`n` of the loop, after `n` iterations without a record (wait mode, or
`n = 0`); the allocations succeed. -/
theorem C4_message_suffix (env : JournalEnv) (m0 id0 : Option Bytes) (is_wait : Bool)
    (fuel n : Nat)
    (h1 : 0 ≤ env.open_r) (h2 : 0 ≤ env.boot_r) (h3 : 0 ≤ env.match_boot_r)
    (h4 : 0 ≤ env.match_uid_r) (h5 : 0 ≤ env.match_priority_r) (h6 : 0 ≤ env.seek_r)
    (hskip : ∀ i, i < n → env.next_r i = 0 ∧ 0 ≤ env.wait_r i)
    (hsel : 0 < env.next_r n) (hmode : is_wait = true ∨ n = 0) (hfuel : n < fuel)
    (hread : 0 ≤ env.message_r)
    (hd : env.message_d.take 8 = cstr "MESSAGE=") (hl : env.message_d.length < 2 ^ 64)
    (hmalloc : env.message_malloc_ok = true)
    (hid : 0 < env.message_id_r → env.message_id_malloc_ok = true) :
    ∃ a, acquire_first_emergency_log_message env m0 id0 is_wait fuel = some a ∧
      a.ret = 0 ∧
      a.message = some (env.message_d.drop 8 ++ [0]) ∧
      (env.message_d.drop 8 ++ [0]).length = env.message_d.length - 8 + 1 ∧
      (env.message_d.length = 8 → a.message = some [0] ∧ c_string [0] = []) := by
  obtain ⟨evs, hevs⟩ := advance_select env is_wait m0 id0 n 0 fuel
    (fun i _ hi => hskip i (by omega)) (by simpa using hsel) hmode hfuel
  obtain ⟨e1, e2⟩ := extract_fields_message env m0 id0 hread hd hl hmalloc hid
  refine ⟨Acquired.after (setup_calls env) (Acquired.after evs (extract_fields env m0 id0)),
    ?_, ?_, ?_, ?_, ?_⟩
  · rw [acquire_setup_ok env m0 id0 is_wait fuel h1 h2 h3 h4 h5 h6, hevs]
    rfl
  · simpa using e1
  · simpa using e2
  · simp
  · intro h8
    have hnil : env.message_d.drop 8 = [] := List.drop_eq_nil_of_le (by omega)
    refine ⟨?_, by decide⟩
    simp only [Acquired.acq_message_after, e2, hnil, List.nil_append]

/-- C4 at the record with the bare field `MESSAGE=`, selected at once. -/
theorem C4_message_suffix_witness :
    ∃ a, acquire_first_emergency_log_message journal_bare_message none none true 1 = some a ∧
      a.ret = 0 ∧
      a.message = some (journal_bare_message.message_d.drop 8 ++ [0]) ∧
      (journal_bare_message.message_d.drop 8 ++ [0]).length
        = journal_bare_message.message_d.length - 8 + 1 ∧
      (journal_bare_message.message_d.length = 8 → a.message = some [0] ∧ c_string [0] = []) :=
  C4_message_suffix journal_bare_message none none true 1 0 (by decide) (by decide) (by decide)
    (by decide) (by decide) (by decide) (fun i hi => absurd hi (Nat.not_lt_zero i))
    (by decide) (Or.inl rfl) (by decide) (by decide) (by decide)
    (by
      have h : journal_bare_message.message_d.length = 8 := by decide
      rw [h]
      norm_num)
    (by decide) (fun _ => by decide)

/-- C2: the record has a `MESSAGE_ID` field and the read of it returns 0, the
success value of `sd_journal_get_data`; the selector returns 0 with the
message `boom` and leaves the identifier `NULL`.  Only a positive result of
the read, which the primitive does not give, makes it copy the identifier. -/
theorem C2_message_id_not_populated :
    journal_ok.message_id_r = 0 ∧
    journal_ok.message_id_d = cstr "MESSAGE_ID=abc" ∧
    Option.map (fun a => (a.ret, a.message, a.message_id))
      (acquire_first_emergency_log_message journal_ok none none true 1)
      = some (0, some (cstr "boom" ++ [0]), none) ∧
    Option.map (fun a => (a.ret, a.message, a.message_id))
      (acquire_first_emergency_log_message journal_positive_id none none true 1)
      = some (0, some (cstr "boom" ++ [0]), some (cstr "abc" ++ [0])) := by
  decide

/-! ## Release of the journal session and of the descriptors -/

theorem foldl_ite {α β : Type} (f : α → β → α) (s : α) (c : Prop) [Decidable c]
    (a b : List β) :
    List.foldl f s (if c then a else b) = if c then List.foldl f s a else List.foldl f s b := by
  split_ifs <;> rfl

/-- Every path of the extraction ends with the session closed. -/
theorem extract_fields_closes (env : JournalEnv) (m0 id0 : Option Bytes) (b : Bool) :
    List.foldl journal_step b (extract_fields env m0 id0).trace = false := by
  simp only [extract_fields, Acquired.acq_trace_after, apply_ite Acquired.trace,
    List.foldl_append, List.foldl_cons, List.foldl_nil, journal_step, foldl_ite, ite_self]

/-- Every return of the loop leaves the session closed. -/
theorem advance_closes (env : JournalEnv) (is_wait : Bool) (m0 id0 : Option Bytes) :
    ∀ (fuel k : Nat) (b : Bool) (a : Acquired),
      advance env is_wait m0 id0 fuel k = some a →
      List.foldl journal_step b a.trace = false := by
  intro fuel
  induction fuel with
  | zero =>
    intro k b a h
    simp [advance] at h
  | succ f ih =>
    intro k b a h
    simp only [advance] at h
    by_cases c1 : env.next_r k < 0
    · simp only [c1, if_true, Option.map_some', Option.some.injEq] at h
      subst h
      simp [journal_step]
    · by_cases c2 : env.next_r k = 0
      · cases is_wait with
        | false =>
          simp only [c2, lt_self_iff_false, if_true, if_false, Option.map_some',
            Option.some.injEq, Bool.false_eq_true] at h
          subst h
          simp [journal_step]
        | true =>
          by_cases c3 : env.wait_r k < 0
          · simp only [c2, c3, lt_self_iff_false, if_true, if_false, Option.map_some',
              Option.some.injEq] at h
            subst h
            simp [journal_step]
          · simp only [c2, c3, lt_self_iff_false, if_true, if_false] at h
            cases hrec : advance env true m0 id0 f (k + 1) with
            | none => simp [hrec] at h
            | some a2 =>
              simp only [hrec, Option.map_some', Option.some.injEq] at h
              subst h
              have := ih (k + 1) b a2 hrec
              simpa [journal_step] using this
      · simp only [c1, c2, if_false, Option.map_some', Option.some.injEq] at h
        subst h
        have := extract_fields_closes env m0 id0 b
        simpa [journal_step] using this

/-- Every return of the selector leaves the session closed. -/
theorem acquire_closes (env : JournalEnv) (m0 id0 : Option Bytes) (is_wait : Bool)
    (fuel : Nat) (a : Acquired)
    (h : acquire_first_emergency_log_message env m0 id0 is_wait fuel = some a) :
    journal_is_open a.trace = false := by
  unfold journal_is_open
  simp only [acquire_first_emergency_log_message] at h
  by_cases c1 : env.open_r < 0
  · simp only [c1, if_true, Option.map_some', Option.some.injEq] at h
    subst h
    simp [journal_step, c1]
  by_cases c2 : env.boot_r < 0
  · simp only [c1, c2, if_true, if_false, Option.map_some', Option.some.injEq] at h
    subst h
    simp [journal_step]
  by_cases c3 : env.match_boot_r < 0
  · simp only [c1, c2, c3, if_true, if_false, Option.map_some', Option.some.injEq] at h
    subst h
    simp [journal_step]
  by_cases c4 : env.match_uid_r < 0
  · simp only [c1, c2, c3, c4, if_true, if_false, Option.map_some', Option.some.injEq] at h
    subst h
    simp [journal_step]
  by_cases c5 : env.match_priority_r < 0
  · simp only [c1, c2, c3, c4, c5, if_true, if_false, Option.map_some',
      Option.some.injEq] at h
    subst h
    simp [journal_step]
  by_cases c6 : env.seek_r < 0
  · simp only [c1, c2, c3, c4, c5, c6, if_true, if_false, Option.map_some',
      Option.some.injEq] at h
    subst h
    simp [journal_step]
  simp only [c1, c2, c3, c4, c5, c6, if_false] at h
  cases hrec : advance env is_wait m0 id0 fuel 0 with
  | none => simp [hrec] at h
  | some a2 =>
    simp only [hrec, Option.map_some', Option.some.injEq] at h
    subst h
    have := advance_closes env is_wait m0 id0 fuel 0 true a2 hrec
    simpa [journal_step, c1] using this

/-- Every return of the presenter leaves no descriptor open. -/
theorem display_releases (env : TtyEnv) (message message_id : Option Bytes)
    (h : (display_emergency_message_fullscreen env message message_id).ret ≠ none) :
    open_fds (display_emergency_message_fullscreen env message message_id).trace = [] := by
  unfold open_fds
  by_cases c1 : env.open_tty1 < 0 <;> by_cases c2 : env.open_target < 0
  all_goals
    by_cases c3 : (find_next_free_vt env.v_state_bits env.getstate_r env.getstate_errno
      env.st (-1) (-1)).1 < 0 <;>
    by_cases c4 : env.activate_target_r < 0 <;>
    by_cases c5 : env.write_cursor_r < 0 <;>
    by_cases c6 : env.write_message_r < 0 <;>
    cases message <;> cases message_id <;>
    first
    | (simp only [display_emergency_message_fullscreen, set_cursor_row, c1, c2, c3, c4, c5, c6,
        if_true, if_false, Run.run_trace_after, apply_ite Run.trace, apply_ite Prod.snd,
        List.foldl_append, List.foldl_cons, List.foldl_nil, fd_step, foldl_ite, ite_self,
        List.erase_cons_head, List.erase_nil, lt_self_iff_false, Int.reduceNeg, Int.reduceLT]
       done)
    | (exfalso
       apply h
       simp only [display_emergency_message_fullscreen, set_cursor_row, c1, c2, c3, c4, c5, c6,
        if_true, if_false, Run.run_ret_after, lt_self_iff_false])

/-- C10: every return of the selector leaves the journal session closed
(after the calls of the trace it is closed whenever it was opened), and every
return of the presenter leaves none of the descriptors it opened open, the
return after a failed switch back to the original VT included.  A run of the
presenter that ends in `strlen (NULL)` is not a return. -/
theorem C10_resources_released (jenv : JournalEnv) (m0 id0 : Option Bytes) (is_wait : Bool)
    (fuel : Nat) (a : Acquired) (tenv : TtyEnv) (message message_id : Option Bytes)
    (hret : acquire_first_emergency_log_message jenv m0 id0 is_wait fuel = some a)
    (hshown : (display_emergency_message_fullscreen tenv message message_id).ret ≠ none) :
    journal_is_open a.trace = false ∧
    open_fds (display_emergency_message_fullscreen tenv message message_id).trace = [] :=
  ⟨acquire_closes jenv m0 id0 is_wait fuel a hret,
    display_releases tenv message message_id hshown⟩

/-- C10 at the journal `journal_ok` and the console on which the switch back
fails. -/
theorem C10_resources_released_witness :
    acquire_first_emergency_log_message journal_ok none none true 1 = some acquired_ok ∧
    journal_is_open acquired_ok.trace = false ∧
    open_fds
      (display_emergency_message_fullscreen tty_restore_fails (some boom) (some zeros)).trace
        = [] :=
  ⟨by decide, C10_resources_released journal_ok none none true 1 acquired_ok tty_restore_fails
    (some boom) (some zeros) (by decide) (by decide)⟩

/-! ## The entry point -/

/-- A return of the extraction that is not negative has the message set. -/
theorem extract_fields_message_set (env : JournalEnv) (m0 id0 : Option Bytes)
    (h : ¬ (extract_fields env m0 id0).ret < 0) :
    ∃ m, (extract_fields env m0 id0).message = some m := by
  by_cases c1 : env.message_r < 0
  · exact absurd (by simp [extract_fields, c1]) h
  · cases c2 : env.message_malloc_ok with
    | false => exact absurd (by simp [extract_fields, memdup_suffix0, c1, c2]) h
    | true =>
      by_cases c3 : env.message_id_r > 0
      · cases c4 : env.message_id_malloc_ok <;>
          simp [extract_fields, memdup_suffix0, c1, c2, c3, c4]
      · simp [extract_fields, memdup_suffix0, c1, c2, c3]

/-- A return of the loop that is not negative either has the message set or
is the return of the non-wait mode with no current record, which leaves both
strings as they were. -/
theorem advance_message_set (env : JournalEnv) (is_wait : Bool) (m0 id0 : Option Bytes) :
    ∀ (fuel k : Nat) (a : Acquired),
      advance env is_wait m0 id0 fuel k = some a → ¬ a.ret < 0 →
      (∃ m, a.message = some m) ∨
        (is_wait = false ∧ env.next_r k = 0 ∧
          a = ⟨0, m0, id0, [Event.sd_journal_next,
            Event.printf "No entries in the journal\n", Event.sd_journal_close]⟩) := by
  intro fuel
  induction fuel with
  | zero =>
    intro k a h
    simp [advance] at h
  | succ f ih =>
    intro k a h hret
    simp only [advance] at h
    by_cases c1 : env.next_r k < 0
    · simp only [c1, if_true, Option.map_some', Option.some.injEq] at h
      subst h
      exact absurd c1 hret
    · by_cases c2 : env.next_r k = 0
      · cases is_wait with
        | false =>
          simp only [c2, lt_self_iff_false, if_true, if_false, Option.map_some',
            Option.some.injEq, Bool.false_eq_true] at h
          subst h
          exact Or.inr ⟨rfl, c2, rfl⟩
        | true =>
          by_cases c3 : env.wait_r k < 0
          · simp only [c2, c3, lt_self_iff_false, if_true, if_false, Option.map_some',
              Option.some.injEq] at h
            subst h
            exact absurd c3 hret
          · simp only [c2, c3, lt_self_iff_false, if_true, if_false] at h
            cases hrec : advance env true m0 id0 f (k + 1) with
            | none => simp [hrec] at h
            | some a2 =>
              simp only [hrec, Option.map_some', Option.some.injEq] at h
              subst h
              rcases ih (k + 1) a2 hrec hret with hm | hm
              · exact Or.inl hm
              · exact absurd hm.1 (by decide)
      · simp only [c1, c2, if_false, Option.map_some', Option.some.injEq] at h
        subst h
        exact Or.inl (extract_fields_message_set env m0 id0 hret)

/-- The same for the selector: a return that is not negative either has the
message set or is the non-wait return with no current record. -/
theorem acquire_message_set (env : JournalEnv) (is_wait : Bool) (m0 id0 : Option Bytes)
    (fuel : Nat) (a : Acquired)
    (h : acquire_first_emergency_log_message env m0 id0 is_wait fuel = some a)
    (hret : ¬ a.ret < 0) :
    (∃ m, a.message = some m) ∨
      (is_wait = false ∧ env.next_r 0 = 0 ∧
        a = ⟨0, m0, id0, setup_calls env ++ [Event.sd_journal_next,
          Event.printf "No entries in the journal\n", Event.sd_journal_close]⟩) := by
  simp only [acquire_first_emergency_log_message] at h
  by_cases c1 : env.open_r < 0
  · simp only [c1, if_true, Option.map_some', Option.some.injEq] at h
    subst h
    exact absurd c1 hret
  by_cases c2 : env.boot_r < 0
  · simp only [c1, c2, if_true, if_false, Option.map_some', Option.some.injEq] at h
    subst h
    exact absurd c2 hret
  by_cases c3 : env.match_boot_r < 0
  · simp only [c1, c2, c3, if_true, if_false, Option.map_some', Option.some.injEq] at h
    subst h
    exact absurd c3 hret
  by_cases c4 : env.match_uid_r < 0
  · simp only [c1, c2, c3, c4, if_true, if_false, Option.map_some', Option.some.injEq] at h
    subst h
    exact absurd c4 hret
  by_cases c5 : env.match_priority_r < 0
  · simp only [c1, c2, c3, c4, c5, if_true, if_false, Option.map_some',
      Option.some.injEq] at h
    subst h
    exact absurd c5 hret
  by_cases c6 : env.seek_r < 0
  · simp only [c1, c2, c3, c4, c5, c6, if_true, if_false, Option.map_some',
      Option.some.injEq] at h
    subst h
    exact absurd c6 hret
  simp only [c1, c2, c3, c4, c5, c6, if_false] at h
  cases hrec : advance env is_wait m0 id0 fuel 0 with
  | none => simp [hrec] at h
  | some a2 =>
    simp only [hrec, Option.map_some', Option.some.injEq] at h
    subst h
    rcases advance_message_set env is_wait m0 id0 fuel 0 a2 hrec hret with hm | hm
    · exact Or.inl hm
    · obtain ⟨hw, hn, ha⟩ := hm
      refine Or.inr ⟨hw, hn, ?_⟩
      rw [ha]
      rfl

/-- The presenter returns -1 when only the switch back to the original VT
fails, and the only diagnostic it prints is the one for that failure. -/
theorem display_restore_fails (env : TtyEnv) (message message_id : Bytes)
    (hopen : 0 ≤ env.open_tty1) (hstate : 0 ≤ env.getstate_r)
    (htarget : 0 ≤ env.open_target) (hactivate : 0 ≤ env.activate_target_r)
    (hw1 : 0 ≤ env.write_background_r) (hw2 : 0 ≤ env.write_clear_r)
    (hw3 : 0 ≤ env.write_cursor_r) (hw4 : 0 ≤ env.write_message_r)
    (hw5 : 0 ≤ env.write_message_id_r) (hstream : env.fdopen_ok = true)
    (hack : env.fgetc_r ≠ -1) (hrestore : env.activate_original_r < 0) :
    (display_emergency_message_fullscreen env (some message) (some message_id)).ret
      = some (-1) ∧
    printed (display_emergency_message_fullscreen env (some message) (some message_id)).trace
      = ["Failed to switch back to original VT: %s\n"] := by
  have h1 : ¬ env.open_tty1 < 0 := by omega
  have h2 : ¬ (0 : Int) < 0 := by omega
  have h3 : ¬ env.open_target < 0 := by omega
  have h4 : ¬ env.activate_target_r < 0 := by omega
  have h5 : ¬ env.write_background_r < 0 := by omega
  have h6 : ¬ env.write_clear_r < 0 := by omega
  have h7 : ¬ env.write_cursor_r < 0 := by omega
  have h8 : ¬ env.write_message_r < 0 := by omega
  have h9 : ¬ env.write_message_id_r < 0 := by omega
  constructor
  · simp only [display_emergency_message_fullscreen, find_next_free_vt_ok _ _ _ _ _ _ hstate,
      set_cursor_row, h1, h2, h3, h4, h5, h6, h7, h8, h9, hstream, hrestore, if_false, if_true,
      Run.run_ret_after, Bool.not_true, Bool.false_eq_true]
  · simp only [display_emergency_message_fullscreen, find_next_free_vt_ok _ _ _ _ _ _ hstate,
      set_cursor_row, h1, h2, h3, h4, h5, h6, h7, h8, h9, hstream, hrestore, hack, if_false,
      if_true, Run.run_trace_after, printed, Bool.not_true, Bool.false_eq_true,
      List.filterMap_append, List.filterMap_cons, List.filterMap_nil, Event.printed,
      List.nil_append, List.append_nil]

/-- C5, as stated, fails: the record is acquired, the target VT activated,
everything is written and the acknowledgement read, and the switch back to
the original VT fails.  The presenter returns -1.  With the identifier
populated `main` returns -1; with the identifier left `NULL` by the selector
`main` prints the same diagnostics and is killed in `free` of the literal
"0000".  In neither run does it exit with status 0. -/
theorem C5_restore_failure_exit :
    (display_emergency_message_fullscreen tty_restore_fails (some boom) (some abc)).ret
      = some (-1) ∧
    Option.map Run.ret (main journal_positive_id tty_restore_fails 1) = some (some (-1)) ∧
    Option.map (fun run => printed run.trace) (main journal_positive_id tty_restore_fails 1)
      = some ["THIS IS THE LOG MESSAGE: %s\n", "THIS IS THE MESSAGE_ID: %s\n",
          "Failed to switch back to original VT: %s\n",
          "Failed to display emergency message on terminal:"] ∧
    Option.map Run.ret (main journal_ok tty_restore_fails 1) = some none ∧
    Option.map (fun run => printed run.trace) (main journal_ok tty_restore_fails 1)
      = some ["THIS IS THE LOG MESSAGE: %s\n", "THIS IS THE MESSAGE_ID: %s\n",
          "Failed to switch back to original VT: %s\n",
          "Failed to display emergency message on terminal:"] := by
  decide

/-- C5, amended: on a run in which the record is acquired, the target VT
activated, everything written and the acknowledgement read, a failure of the
switch back to the original VT is reported and is the outcome of the
presenter: called with the strings `main` passes, it prints the diagnostic of
the failure and returns -1.  When the selector populated the identifier,
`main` prints its own diagnostic and returns that -1. -/
theorem C5_restore_failure_reported (jenv : JournalEnv) (tenv : TtyEnv) (fuel : Nat)
    (a : Acquired)
    (hacq : acquire_first_emergency_log_message jenv none none true fuel = some a)
    (hret : ¬ a.ret < 0)
    (hopen : 0 ≤ tenv.open_tty1) (hstate : 0 ≤ tenv.getstate_r)
    (htarget : 0 ≤ tenv.open_target) (hactivate : 0 ≤ tenv.activate_target_r)
    (hw1 : 0 ≤ tenv.write_background_r) (hw2 : 0 ≤ tenv.write_clear_r)
    (hw3 : 0 ≤ tenv.write_cursor_r) (hw4 : 0 ≤ tenv.write_message_r)
    (hw5 : 0 ≤ tenv.write_message_id_r) (hstream : tenv.fdopen_ok = true)
    (hack : tenv.fgetc_r ≠ -1) (hrestore : tenv.activate_original_r < 0) :
    (display_emergency_message_fullscreen tenv a.message
      (if a.message_id.isNone then some (cstr "0000" ++ [0]) else a.message_id)).ret
      = some (-1) ∧
    printed (display_emergency_message_fullscreen tenv a.message
      (if a.message_id.isNone then some (cstr "0000" ++ [0]) else a.message_id)).trace
      = ["Failed to switch back to original VT: %s\n"] ∧
    (∀ identifier, a.message_id = some identifier →
      ∃ run, main jenv tenv fuel = some run ∧ run.ret = some (-1) ∧
        printed run.trace = printed a.trace ++
          ["THIS IS THE LOG MESSAGE: %s\n", "THIS IS THE MESSAGE_ID: %s\n",
            "Failed to switch back to original VT: %s\n",
            "Failed to display emergency message on terminal:"]) := by
  have hmsg : ∃ m, a.message = some m := by
    rcases acquire_message_set jenv true none none fuel a hacq hret with h | h
    · exact h
    · exact absurd h.1 (by decide)
  obtain ⟨m, hm⟩ := hmsg
  have hshown : ∀ i : Bytes,
      (display_emergency_message_fullscreen tenv (some m) (some i)).ret = some (-1) ∧
      printed (display_emergency_message_fullscreen tenv (some m) (some i)).trace
        = ["Failed to switch back to original VT: %s\n"] :=
    fun i => display_restore_fails tenv m i hopen hstate htarget hactivate
      hw1 hw2 hw3 hw4 hw5 hstream hack hrestore
  have hneg : ((-1 : Int) < 0) := by decide
  refine ⟨?_, ?_, ?_⟩
  · rw [hm]
    cases a.message_id with
    | none => exact (hshown _).1
    | some i => exact (hshown i).1
  · rw [hm]
    cases a.message_id with
    | none => exact (hshown _).2
    | some i => exact (hshown i).2
  · intro identifier hid
    obtain ⟨d1, d2⟩ := hshown identifier
    refine ⟨main_after_acquire tenv a, ?_, ?_, ?_⟩
    · simp only [main, hacq, Option.map_some']
    · simp only [main_after_acquire, hret, if_false, hm, hid, Option.isNone_some,
        Bool.false_eq_true, d1]
    · simp only [main_after_acquire, hret, if_false, hm, hid, Option.isNone_some,
        Bool.false_eq_true, d1, hneg, if_true, printed,
        List.filterMap_append, List.filterMap_cons, List.filterMap_nil, Event.printed,
        List.append_assoc]
      have d3 := d2
      simp only [printed] at d3
      rw [d3]
      simp

/-- C5, amended, at the journal whose identifier read is positive and the
console on which the switch back fails. -/
theorem C5_restore_failure_reported_witness :
    (display_emergency_message_fullscreen tty_restore_fails acquired_with_id.message
      (if acquired_with_id.message_id.isNone then some (cstr "0000" ++ [0])
        else acquired_with_id.message_id)).ret = some (-1) ∧
    ∃ run, main journal_positive_id tty_restore_fails 1 = some run ∧ run.ret = some (-1) ∧
      printed run.trace = printed acquired_with_id.trace ++
        ["THIS IS THE LOG MESSAGE: %s\n", "THIS IS THE MESSAGE_ID: %s\n",
          "Failed to switch back to original VT: %s\n",
          "Failed to display emergency message on terminal:"] :=
  have h := C5_restore_failure_reported journal_positive_id tty_restore_fails 1
    acquired_with_id (by decide) (by decide) (by decide) (by decide) (by decide) (by decide)
    (by decide) (by decide) (by decide) (by decide) (by decide) (by decide) (by decide)
    (by decide)
  ⟨h.1, h.2.2 (cstr "abc" ++ [0]) rfl⟩

/-- The calls of the selector are among the calls of `main`. -/
theorem main_after_acquire_trace (tenv : TtyEnv) (a : Acquired) (e : Event)
    (he : e ∈ a.trace) : e ∈ (main_after_acquire tenv a).trace := by
  unfold main_after_acquire
  by_cases c1 : a.ret < 0
  · simp only [c1, if_true]
    exact List.mem_append_left _ he
  · simp only [c1, if_false]
    split
    · exact List.mem_append_left _ (List.mem_append_left _ he)
    · split <;>
        exact List.mem_append_left _ (List.mem_append_left _
          (List.mem_append_left _ (List.mem_append_left _ he)))

/-- C6, as stated, fails.  `main` runs the selector in wait mode only: on a
journal with no record at the first advancement it waits, takes the record of
the second advancement and calls the presenter, which opens `/dev/tty1` and
`/dev/tty8` and activates VT 8; with the identifier populated it then returns
0.  And handed the outcome of the non-wait return (0, both strings `NULL`),
the rest of `main` calls the presenter all the same, which opens `/dev/tty1`
and `/dev/tty8` before the process is killed by `strlen (NULL)`: no exit with
a non-zero status, and consoles opened. -/
theorem C6_entry_point_on_no_record :
    Option.map (fun run => decide (Event.sd_journal_wait ∈ run.trace))
      (main journal_late tty_ok 2) = some true ∧
    Option.map (fun run => opened_paths run.trace) (main journal_late tty_ok 2)
      = some [cstr "/dev/tty1", cstr "/dev/tty8"] ∧
    Option.map (fun run => activated run.trace) (main journal_late tty_ok 2)
      = some [8, 1] ∧
    Option.map Run.ret (main journal_late_id tty_ok 2) = some (some 0) ∧
    Option.map (fun run => opened_paths run.trace) (main journal_late_id tty_ok 2)
      = some [cstr "/dev/tty1", cstr "/dev/tty8"] ∧
    Option.map (fun a => (a.ret, a.message, a.message_id))
      (acquire_first_emergency_log_message journal_late none none false 1)
      = some (empty_outcome.ret, empty_outcome.message, empty_outcome.message_id) ∧
    (main_after_acquire tty_ok empty_outcome).ret = none ∧
    opened_paths (main_after_acquire tty_ok empty_outcome).trace
      = [cstr "/dev/tty1", cstr "/dev/tty8"] := by
  decide

/-- C6, amended: in non-wait mode, when the first advancement reports no
current record, the selector closes the session and returns 0 with both
strings as they were on entry, without opening any console.  A caller that
passed the strings as `NULL` can tell this from a populated record: every
return of 0 of the selector, in either mode, is this one (non-wait mode, no
current record at the first advancement, message `NULL`) or has the message
set.  The entry point does not use this mode: on such a journal `main` never
returns without having waited. -/
theorem C6_empty_outcome (jenv : JournalEnv) (tenv : TtyEnv) (m0 id0 : Option Bytes)
    (fuel : Nat)
    (h1 : 0 ≤ jenv.open_r) (h2 : 0 ≤ jenv.boot_r) (h3 : 0 ≤ jenv.match_boot_r)
    (h4 : 0 ≤ jenv.match_uid_r) (h5 : 0 ≤ jenv.match_priority_r) (h6 : 0 ≤ jenv.seek_r)
    (hnone : jenv.next_r 0 = 0) :
    acquire_first_emergency_log_message jenv m0 id0 false (fuel + 1)
      = some ⟨0, m0, id0, setup_calls jenv ++ [Event.sd_journal_next,
          Event.printf "No entries in the journal\n", Event.sd_journal_close]⟩ ∧
    opened_paths (setup_calls jenv ++ [Event.sd_journal_next,
      Event.printf "No entries in the journal\n", Event.sd_journal_close]) = [] ∧
    (∀ (env : JournalEnv) (is_wait : Bool) (n : Nat) (a : Acquired),
      acquire_first_emergency_log_message env none none is_wait n = some a →
      a.ret = 0 →
      (is_wait = false ∧ env.next_r 0 = 0 ∧
        a = ⟨0, none, none, setup_calls env ++ [Event.sd_journal_next,
          Event.printf "No entries in the journal\n", Event.sd_journal_close]⟩) ∨
      (∃ m, a.message = some m)) ∧
    (∀ run, main jenv tenv fuel = some run → Event.sd_journal_wait ∈ run.trace) := by
  refine ⟨?_, ?_, ?_, ?_⟩
  · rw [acquire_setup_ok jenv m0 id0 false (fuel + 1) h1 h2 h3 h4 h5 h6]
    simp [advance, hnone, Acquired.after]
  · simp [opened_paths, setup_calls, Event.opened]
  · intro env is_wait n a hacq hret
    have hnn : ¬ a.ret < 0 := by omega
    rcases acquire_message_set env is_wait none none n a hacq hnn with h | h
    · exact Or.inr h
    · exact Or.inl h
  · intro run hrun
    simp only [main, acquire_setup_ok jenv none none true fuel h1 h2 h3 h4 h5 h6] at hrun
    cases fuel with
    | zero => simp [advance] at hrun
    | succ f =>
      simp only [advance, hnone, lt_self_iff_false, if_true, if_false] at hrun
      by_cases c : jenv.wait_r 0 < 0
      · simp only [c, if_true, Option.map_some', Option.some.injEq] at hrun
        subst hrun
        apply main_after_acquire_trace
        simp
      · simp only [c, if_false] at hrun
        cases hrec : advance jenv true none none f (0 + 1) with
        | none => simp [hrec] at hrun
        | some a2 =>
          simp only [hrec, Option.map_some', Option.some.injEq] at hrun
          subst hrun
          apply main_after_acquire_trace
          simp

/-- C6, amended, at the journal with no record at the first advancement. -/
theorem C6_empty_outcome_witness :
    acquire_first_emergency_log_message journal_late none none false (2 + 1)
      = some ⟨0, none, none, setup_calls journal_late ++ [Event.sd_journal_next,
          Event.printf "No entries in the journal\n", Event.sd_journal_close]⟩ ∧
    opened_paths (setup_calls journal_late ++ [Event.sd_journal_next,
      Event.printf "No entries in the journal\n", Event.sd_journal_close]) = [] ∧
    (∀ (env : JournalEnv) (is_wait : Bool) (n : Nat) (a : Acquired),
      acquire_first_emergency_log_message env none none is_wait n = some a →
      a.ret = 0 →
      (is_wait = false ∧ env.next_r 0 = 0 ∧
        a = ⟨0, none, none, setup_calls env ++ [Event.sd_journal_next,
          Event.printf "No entries in the journal\n", Event.sd_journal_close]⟩) ∨
      (∃ m, a.message = some m)) ∧
    (∀ run, main journal_late tty_ok 2 = some run → Event.sd_journal_wait ∈ run.trace) :=
  C6_empty_outcome journal_late tty_ok none none 2 (by decide) (by decide) (by decide)
    (by decide) (by decide) (by decide) (by decide)

end EmergWait
